import Mathlib

/-!
Verification development for the v8-build repository: a pipeline that pins,
fetches, configures and builds the V8 static libraries (clone.py / build.py),
plus the embedding example programs shipped with it.

The pipeline scripts themselves are not part of the source snapshot (only the
README and the embedding examples are), so the pipeline is modelled from the
specification; the embedding examples (callbacks.cc-style `Add`,
`StringLength`, and the `accessCount` accessor) are translated directly from
the C++ sources.
-/

namespace V8Build

/-! ## Build configuration (BuildArgs) -/

/-- Scalar GN values appearing in an args.gn configuration: booleans, integers
and quoted strings. -/
inductive GNValue
  | bool (b : Bool)
  | int (n : Int)
  | str (s : String)
deriving DecidableEq, Repr

/-- BuildArgs: an ordered mapping from GN flag name to scalar value. -/
abbrev BuildArgs := List (String × GNValue)

/-- Look up the value bound to a key (first binding wins; the maps produced by
the merge never contain duplicate keys). -/
def lookupArg : BuildArgs → String → Option GNValue
  | [], _ => none
  | (k0, v0) :: rest, k => if k0 = k then some v0 else lookupArg rest k

/-- Write a binding, replacing an existing binding of the same key in place. -/
def setArg : BuildArgs → String → GNValue → BuildArgs
  | [], k, v => [(k, v)]
  | (k0, v0) :: rest, k, v =>
      if k0 = k then (k, v) :: rest else (k0, v0) :: setArg rest k v

/-- Apply a list of overrides on top of a base map, left to right, so a later
writer of the same key wins (last-writer-wins). -/
def applyOverrides : BuildArgs → BuildArgs → BuildArgs
  | base, [] => base
  | base, (k, v) :: rest => applyOverrides (setArg base k v) rest

/-! ## Target descriptors -/

/-- Platforms supported by the build pipeline (per the README table). -/
inductive Platform
  | linux
  | macos
  | windows
deriving DecidableEq, Repr

/-- CPU architectures accepted by the build pipeline. -/
inductive Arch
  | x64
  | arm64
  | x86
deriving DecidableEq, Repr

/-- The GN target_cpu token for an architecture. -/
def Arch.token : Arch → String
  | .x64 => "x64"
  | .arm64 => "arm64"
  | .x86 => "x86"

/-- Release or debug build mode. -/
inductive Variant
  | release
  | debug
deriving DecidableEq, Repr

/-- TargetDescriptor: platform, architecture, variant and optional symbol
level; fully determines which overrides are applied. -/
structure TargetDescriptor where
  platform : Platform
  arch : Arch
  variant : Variant
  symbolLevel : Option Int
deriving DecidableEq, Repr

/-- Modelled from the spec: build.py is not part of the source snapshot, so
the flag-dependent GN arguments it derives from the target descriptor
(`target_cpu`, `is_debug`, `symbol_level`, per the README section on custom
build configuration) are reconstructed from the specification's description of
the configuration merge. -/
def targetOverrides (t : TargetDescriptor) : BuildArgs :=
  [("target_cpu", GNValue.str t.arch.token),
   ("is_debug", GNValue.bool (t.variant = Variant.debug))]
  ++ (match t.symbolLevel with
      | some n => [("symbol_level", GNValue.int n)]
      | none => [])

/-- Modelled from the spec: the effective BuildArgs start from the base
configuration file and apply the target-derived overrides on top,
last-writer-wins per key. -/
def effectiveArgs (base : BuildArgs) (t : TargetDescriptor) : BuildArgs :=
  applyOverrides base (targetOverrides t)

/-- Serialize one GN value in the toolchain's textual format: booleans as
true/false tokens, strings quoted. -/
def GNValue.serialize : GNValue → String
  | .bool true => "true"
  | .bool false => "false"
  | .int n => toString n
  | .str s => "\"" ++ s ++ "\""

/-- Serialize a BuildArgs map to the args.gn textual format. -/
def serializeArgs (args : BuildArgs) : String :=
  String.intercalate "\n" (args.map fun kv => kv.1 ++ " = " ++ kv.2.serialize)

/-- Host environment visible to a Build invocation (operating system name and
ambient environment variables). -/
structure HostEnv where
  os : String
  envVars : List (String × String)

/-- Modelled from the spec: the merged configuration is computed from the base
configuration and the target descriptor alone; no environment-dependent
defaults leak into it (host compiler discovery is delegated to the external
toolchain and never embedded in BuildArgs). -/
def computeEffectiveArgs (_host : HostEnv) (base : BuildArgs)
    (t : TargetDescriptor) : BuildArgs :=
  effectiveArgs base t

/-! ## Source acquisition (clone.py, modelled from the spec) -/

deriving instance DecidableEq for Except

/-- Errors raised by source acquisition. -/
inductive AcqError
  | versionNotFound
  | dependencyResolutionError
  | ioError
deriving DecidableEq, Repr

/-- The on-disk materialization of the primary library plus its dependencies,
with the version marker file recording exactly which VersionSpec is checked
out. -/
structure SourceTree where
  marker : String
  deps : List (String × String)
deriving DecidableEq, Repr

/-- The acquisition destination directory: absent, or holding a source tree. -/
abbrev Destination := Option SourceTree

/-- Modelled from the spec: the observable upstream world for one acquisition
run — which VersionSpecs resolve, the dependency manifest embedded in the
fetched tree, and an injected failure index for the n-th dependency fetch
(used to model a network fault mid-dependency-fetch). -/
structure FetchPlan where
  resolvable : List String
  manifest : List (String × String)
  depFailsAt : Option Nat
deriving DecidableEq, Repr

/-- Result of one acquisition run: the outcome, the final destination state,
and how many fetch operations were performed. -/
structure AcqResult where
  outcome : Except AcqError SourceTree
  dest : Destination
  fetches : Nat
deriving DecidableEq, Repr

/-- Fetch the declared dependencies in manifest order, failing with an I/O
error at the injected index if any. -/
def fetchDepList (failAt : Option Nat) :
    List (String × String) → Nat → Except AcqError (List (String × String))
  | [], _ => Except.ok []
  | (name, v) :: rest, i =>
      if failAt = some i then Except.error AcqError.ioError
      else
        match fetchDepList failAt rest (i + 1) with
        | Except.ok ds => Except.ok ((name, v) :: ds)
        | Except.error e => Except.error e

/-- Modelled from the spec: resolve the requested version and fetch the full
tree (primary source plus all declared dependencies) transactionally; an
unresolvable version fails with VersionNotFound before anything is fetched. -/
def fetchTree (plan : FetchPlan) (version : String) :
    Except AcqError SourceTree :=
  if version ∈ plan.resolvable then
    match fetchDepList plan.depFailsAt plan.manifest 0 with
    | Except.ok ds => Except.ok { marker := version, deps := ds }
    | Except.error e => Except.error e
  else Except.error AcqError.versionNotFound

/-- Modelled from the spec: a fresh acquisition commits the fully-fetched tree
to the destination only on success; on any failure the destination keeps its
prior state (rollback-or-nothing). -/
def AcquireFresh (plan : FetchPlan) (version : String) (dest : Destination) :
    AcqResult :=
  match fetchTree plan version with
  | Except.ok tree =>
      { outcome := Except.ok tree, dest := some tree,
        fetches := 1 + plan.manifest.length }
  | Except.error e => { outcome := Except.error e, dest := dest, fetches := 0 }

/-- Modelled from the spec: Acquire(version, destination). If the destination
already holds a tree it validates the recorded version marker first — only a
matching marker short-circuits to a no-op success with no fetches; a stale or
missing marker falls through to a fresh transactional fetch. -/
def Acquire (plan : FetchPlan) (version : String) (dest : Destination) :
    AcqResult :=
  match dest with
  | some tree =>
      if tree.marker = version then
        { outcome := Except.ok tree, dest := some tree, fetches := 0 }
      else AcquireFresh plan version dest
  | none => AcquireFresh plan version dest

/-! ## Build orchestration (build.py, modelled from the spec) -/

/-- Errors raised by build orchestration. -/
inductive BuildError
  | externalToolchainFailure (step : String) (output : String)
  | installIOError
deriving DecidableEq, Repr

/-- Modelled from the spec: the external toolchain as a capability interface —
whether its configure and compile steps succeed, and their captured
diagnostic output. -/
structure Toolchain where
  configureOk : Bool
  compileOk : Bool
  configureOutput : String
  compileOutput : String
deriving DecidableEq, Repr

/-- The documented primary static-library archive name per platform
(libv8_monolith.a, or v8_monolith.lib on Windows). -/
def primaryLibName : Platform → String
  | .windows => "v8_monolith.lib"
  | _ => "libv8_monolith.a"

/-- The documented auxiliary platform-specific static archives
(libv8_libbase.a and libv8_libplatform.a, Linux only). -/
def auxLibNames : Platform → List String
  | .linux => ["libv8_libbase.a", "libv8_libplatform.a"]
  | _ => []

/-- The normalized install output: the single primary static archive, the
auxiliary archives, the header tree mirrored from the source, and the
effective configuration file used. -/
structure InstallLayout where
  primaryLib : String
  auxLibs : List String
  headers : List String
  argsFile : String
deriving DecidableEq, Repr

/-- Result of one Build invocation: the outcome and the final state of the
install directory for this target. -/
structure BuildResult where
  outcome : Except BuildError InstallLayout
  installDir : Option InstallLayout
deriving DecidableEq, Repr

/-- Modelled from the spec: Build merges the configuration, runs the external
configure then compile steps, and installs only after a successful compile; a
failing step surfaces the captured output and leaves the install directory in
its prior state. -/
def Build (tc : Toolchain) (srcHeaders : List String) (base : BuildArgs)
    (t : TargetDescriptor) (prior : Option InstallLayout) : BuildResult :=
  let args := effectiveArgs base t
  if tc.configureOk then
    if tc.compileOk then
      let layout : InstallLayout :=
        { primaryLib := primaryLibName t.platform,
          auxLibs := auxLibNames t.platform,
          headers := srcHeaders,
          argsFile := serializeArgs args }
      { outcome := Except.ok layout, installDir := some layout }
    else
      { outcome := Except.error
          (BuildError.externalToolchainFailure "compile" tc.compileOutput),
        installDir := prior }
  else
    { outcome := Except.error
        (BuildError.externalToolchainFailure "configure" tc.configureOutput),
      installDir := prior }

/-! ## Embedding example programs (translated from the C++ sources) -/

/-- JavaScript double values as the embedding examples observe them: NaN or a
finite value (modelled as an exact rational). -/
inductive JSNum
  | nan
  | fin (q : Rat)
deriving DecidableEq, Repr

/-- Addition on the modelled doubles: NaN propagates. -/
def JSNum.add : JSNum → JSNum → JSNum
  | .fin a, .fin b => .fin (a + b)
  | _, _ => .nan

/-- JavaScript values passed to the example bindings. An object carries the
result of its ToPrimitive coercion: some value, or none when its valueOf
throws. -/
inductive JSVal
  | undefined
  | null
  | boolean (b : Bool)
  | number (x : JSNum)
  | str (s : String)
  | object (valueOfResult : Option JSNum)
deriving DecidableEq, Repr

/-- ToNumber on a string, for the fragment the examples exercise: blank
strings are 0, decimal digit strings have their numeric value, anything else
is NaN. -/
def strToNumber (s : String) : JSNum :=
  if s.trim = "" then JSNum.fin 0
  else
    match s.trim.toNat? with
    | some n => JSNum.fin n
    | none => JSNum.nan

/-- Value::NumberValue of the V8 API: the ToNumber coercion, empty (none)
exactly when the coercion throws. -/
def numberValue : JSVal → Option JSNum
  | .undefined => some JSNum.nan
  | .null => some (JSNum.fin 0)
  | .boolean b => some (JSNum.fin (if b then 1 else 0))
  | .number x => some x
  | .str s => some (strToNumber s)
  | .object r => r

/-- Outcome of one example binding call: a thrown JS error with no return
value set, or a returned value. -/
inductive CallOutcome
  | thrown (msg : String)
  | ret (v : JSVal)
deriving DecidableEq, Repr

/-- The Add callback of the function-callback example: with fewer than two
arguments it throws and returns no value; otherwise it returns the sum of the
NumberValue coercions of the first two arguments, a failed coercion
defaulting to 0 via FromMaybe(0). -/
def Add (args : List JSVal) : CallOutcome :=
  if args.length < 2 then
    CallOutcome.thrown "add() requires two arguments"
  else
    let a := (numberValue (args.getD 0 JSVal.undefined)).getD (JSNum.fin 0)
    let b := (numberValue (args.getD 1 JSVal.undefined)).getD (JSNum.fin 0)
    CallOutcome.ret (JSVal.number (a.add b))

/-- The IsString check used by the StringLength callback. -/
def isString : JSVal → Bool
  | .str _ => true
  | _ => false

/-- The string payload of a JS value (inspected only after IsString). -/
def getStr : JSVal → String
  | .str s => s
  | _ => ""

/-- The StringLength callback: throws unless a first argument exists and is a
string, and otherwise returns the string's length. -/
def StringLength (args : List JSVal) : CallOutcome :=
  if args.length < 1 || !(isString (args.getD 0 JSVal.undefined)) then
    CallOutcome.thrown "stringLength() requires a string argument"
  else
    CallOutcome.ret (JSVal.number
      (JSNum.fin ((getStr (args.getD 0 JSVal.undefined)).length : Rat)))

/-- The accessCount getter of the accessor example: it increments the C++
counter and then returns it — (new counter state, returned value). -/
def AccessCountGetter (count : Int) : Int × Int :=
  (count + 1, count + 1)

/-- Perform n successive reads of accessCount starting from a counter state,
returning the final counter state and the list of returned values. -/
def readSeq : Int → Nat → Int × List Int
  | c, 0 => (c, [])
  | c, n + 1 =>
      let s := AccessCountGetter c
      let r := readSeq s.1 n
      (r.1, s.2 :: r.2)

/-- The base configuration of the spec's override-precedence example. -/
def demoBase : BuildArgs :=
  [("is_debug", GNValue.bool false), ("target_cpu", GNValue.str "x86")]

/-- The target descriptor of the spec's override-precedence example:
architecture x64, variant debug. -/
def demoTarget : TargetDescriptor :=
  { platform := Platform.linux, arch := Arch.x64, variant := Variant.debug,
    symbolLevel := none }

/-- A fetch plan where the pinned V8 version resolves and no failure is
injected. -/
def demoPlan : FetchPlan :=
  { resolvable := ["14.0.365.10"], manifest := [], depFailsAt := none }

/-- A source tree already checked out at the pinned V8 version. -/
def demoTree : SourceTree := { marker := "14.0.365.10", deps := [] }

/-- A fetch plan whose first dependency fetch fails (injected network
fault). -/
def failPlan : FetchPlan :=
  { resolvable := ["14.0.365.10"], manifest := [("icu", "chromium-icu-head")],
    depFailsAt := some 0 }

/-- A toolchain whose configure and compile steps both succeed. -/
def demoToolchain : Toolchain :=
  { configureOk := true, compileOk := true, configureOutput := "",
    compileOutput := "" }

/-- A toolchain whose compile step fails. -/
def brokenToolchain : Toolchain :=
  { configureOk := true, compileOk := false, configureOutput := "",
    compileOutput := "ninja: build stopped" }

/-- The install layout a successful Linux x64 debug build produces from the
demo base configuration. -/
def demoLayout : InstallLayout :=
  { primaryLib := "libv8_monolith.a",
    auxLibs := ["libv8_libbase.a", "libv8_libplatform.a"],
    headers := ["include/v8.h"],
    argsFile := serializeArgs (effectiveArgs demoBase demoTarget) }

end V8Build

namespace V8Build

/-! ## Merge lemmas -/

theorem lookupArg_setArg_self (l : BuildArgs) (k : String) (v : GNValue) :
    lookupArg (setArg l k v) k = some v := by
  induction l with
  | nil => simp [setArg, lookupArg]
  | cons hd tl ih =>
      obtain ⟨k0, v0⟩ := hd
      by_cases h : k0 = k
      · simp [setArg, h, lookupArg]
      · simp [setArg, h, lookupArg, ih]

theorem lookupArg_setArg_ne (l : BuildArgs) (k : String) (v : GNValue)
    (k' : String) (h : k' ≠ k) :
    lookupArg (setArg l k v) k' = lookupArg l k' := by
  induction l with
  | nil => simp only [setArg, lookupArg, if_neg (Ne.symm h)]
  | cons hd tl ih =>
      obtain ⟨k0, v0⟩ := hd
      by_cases h0 : k0 = k
      · subst h0
        simp only [setArg, if_pos rfl, lookupArg, if_neg (Ne.symm h)]
      · simp only [setArg, if_neg h0, lookupArg, ih]

theorem lookupArg_eq_none_of_not_mem (l : BuildArgs) (k : String)
    (h : k ∉ l.map Prod.fst) : lookupArg l k = none := by
  induction l with
  | nil => simp [lookupArg]
  | cons hd tl ih =>
      obtain ⟨k0, v0⟩ := hd
      simp only [List.map_cons, List.mem_cons] at h
      push_neg at h
      simp only [lookupArg, if_neg (Ne.symm h.1), ih h.2]

theorem lookupArg_applyOverrides_none (ovs : BuildArgs) (base : BuildArgs)
    (k : String) (h : lookupArg ovs k = none) :
    lookupArg (applyOverrides base ovs) k = lookupArg base k := by
  induction ovs generalizing base with
  | nil => simp [applyOverrides]
  | cons hd tl ih =>
      obtain ⟨k0, v0⟩ := hd
      simp only [lookupArg] at h
      by_cases h0 : k0 = k
      · simp [h0] at h
      · simp only [if_neg h0] at h
        simp only [applyOverrides]
        rw [ih (setArg base k0 v0) h, lookupArg_setArg_ne]
        exact fun hk => h0 hk.symm

theorem lookupArg_applyOverrides_some (ovs : BuildArgs) (base : BuildArgs)
    (k : String) (v : GNValue) (hnd : (ovs.map Prod.fst).Nodup)
    (h : lookupArg ovs k = some v) :
    lookupArg (applyOverrides base ovs) k = some v := by
  induction ovs generalizing base with
  | nil => simp [lookupArg] at h
  | cons hd tl ih =>
      obtain ⟨k0, v0⟩ := hd
      simp only [List.map_cons, List.nodup_cons] at hnd
      simp only [lookupArg] at h
      by_cases h0 : k0 = k
      · subst h0
        rw [if_pos rfl] at h
        injection h with h
        subst h
        simp only [applyOverrides]
        rw [lookupArg_applyOverrides_none tl (setArg base k0 v0) k0
            (lookupArg_eq_none_of_not_mem tl k0 hnd.1)]
        exact lookupArg_setArg_self base k0 v0
      · rw [if_neg h0] at h
        simp only [applyOverrides]
        exact ih (setArg base k0 v0) hnd.2 h

theorem targetOverrides_keys_nodup (t : TargetDescriptor) :
    ((targetOverrides t).map Prod.fst).Nodup := by
  obtain ⟨p, a, vr, sl⟩ := t
  cases sl <;> simp [targetOverrides]

/-! ## Claim theorems about the configuration merge -/

/-- Claim C1: in the Build configuration merge, every key produced by the
target-derived overrides takes precedence over the base file (last-writer-wins
with overrides applied after the base), every base key not superseded by an
override of the same name is preserved unchanged, and in particular for the
base {is_debug = false, target_cpu = "x86"} and a target requesting x64/debug
the effective BuildArgs contain target_cpu = "x64" and is_debug = true. -/
theorem C1_merge_override_precedence (base : BuildArgs) (t : TargetDescriptor) :
    (∀ k v, lookupArg (targetOverrides t) k = some v →
        lookupArg (effectiveArgs base t) k = some v)
  ∧ (∀ k, lookupArg (targetOverrides t) k = none →
        lookupArg (effectiveArgs base t) k = lookupArg base k)
  ∧ lookupArg (effectiveArgs demoBase demoTarget) "target_cpu"
      = some (GNValue.str "x64")
  ∧ lookupArg (effectiveArgs demoBase demoTarget) "is_debug"
      = some (GNValue.bool true) := by
  refine ⟨?_, ?_, by decide, by decide⟩
  · intro k v h
    exact lookupArg_applyOverrides_some (targetOverrides t) base k v
      (targetOverrides_keys_nodup t) h
  · intro k h
    exact lookupArg_applyOverrides_none (targetOverrides t) base k h

/-- Witness for C1 at the spec's concrete example: target_cpu is overridden to
x64, and a key absent from the overrides is preserved from the base. -/
theorem C1_merge_override_precedence_witness :
    lookupArg (effectiveArgs demoBase demoTarget) "target_cpu"
      = some (GNValue.str "x64")
  ∧ lookupArg (effectiveArgs demoBase demoTarget) "v8_monolithic"
      = lookupArg demoBase "v8_monolithic" := by
  refine ⟨?_, ?_⟩
  · exact (C1_merge_override_precedence demoBase demoTarget).1 "target_cpu"
      (GNValue.str "x64") (by decide)
  · exact (C1_merge_override_precedence demoBase demoTarget).2.1 "v8_monolithic"
      (by decide)

/-- Claim C2: for a fixed (base configuration, target descriptor) pair, the
serialized effective BuildArgs are byte-identical across invocations on any
two host environments: the merged configuration depends only on the base
configuration and the target descriptor. -/
theorem C2_determinism (h1 h2 : HostEnv) (base : BuildArgs)
    (t : TargetDescriptor) :
    serializeArgs (computeEffectiveArgs h1 base t)
      = serializeArgs (computeEffectiveArgs h2 base t) := rfl

/-! ## Claim theorems about source acquisition -/

theorem AcquireFresh_error_dest (plan : FetchPlan) (v : String)
    (dest : Destination) (e : AcqError)
    (h : (AcquireFresh plan v dest).outcome = Except.error e) :
    (AcquireFresh plan v dest).dest = dest := by
  unfold AcquireFresh at h ⊢
  cases hf : fetchTree plan v with
  | ok tree => rw [hf] at h; simp at h
  | error e0 => rfl

/-- Claim C3: Acquire is idempotent — when the destination already holds a
SourceTree whose recorded version marker matches the requested version, a
second Acquire succeeds as a no-op after validating the marker (it returns
the identical tree, leaves the destination unchanged, and performs zero
fetches), while a non-matching marker is never trusted and falls through to a
fresh fetch. -/
theorem C3_acquire_idempotent (plan : FetchPlan) (v : String)
    (tree : SourceTree) :
    (tree.marker = v →
      Acquire plan v (some tree)
        = { outcome := Except.ok tree, dest := some tree, fetches := 0 })
  ∧ (tree.marker ≠ v →
      Acquire plan v (some tree) = AcquireFresh plan v (some tree)) := by
  constructor
  · intro h
    simp [Acquire, h]
  · intro h
    simp [Acquire, h]

/-- Witness for C3: re-acquiring the pinned V8 version over a destination
already recording that version is a no-op success with zero fetches. -/
theorem C3_acquire_idempotent_witness :
    Acquire demoPlan "14.0.365.10" (some demoTree)
      = { outcome := Except.ok demoTree, dest := some demoTree,
          fetches := 0 } :=
  (C3_acquire_idempotent demoPlan "14.0.365.10" demoTree).1 rfl

/-- Claim C4: acquisition is rollback-or-nothing — whenever an Acquire run
fails (including a failure injected mid-dependency-fetch), the destination is
left exactly in its prior state: untouched if it held a valid tree, absent if
it was absent, never half-populated or mixing old and new dependency
versions. -/
theorem C4_rollback_or_nothing (plan : FetchPlan) (v : String)
    (dest : Destination) (e : AcqError)
    (h : (Acquire plan v dest).outcome = Except.error e) :
    (Acquire plan v dest).dest = dest := by
  cases dest with
  | none => exact AcquireFresh_error_dest plan v none e h
  | some tree =>
      by_cases hm : tree.marker = v
      · simp [Acquire, hm] at h
      · simp only [Acquire, if_neg hm] at h ⊢
        exact AcquireFresh_error_dest plan v (some tree) e h

/-- Witness for C4: a failure injected at the first dependency fetch leaves an
absent destination absent. -/
theorem C4_rollback_or_nothing_witness :
    (Acquire failPlan "14.0.365.10" none).outcome
      = Except.error AcqError.ioError
  ∧ (Acquire failPlan "14.0.365.10" none).dest = none := by
  refine ⟨by decide, ?_⟩
  exact C4_rollback_or_nothing failPlan "14.0.365.10" none AcqError.ioError
    (by decide)

/-- Claim C6: when the requested version does not resolve to a real point in
the upstream project (and the destination does not already record that
version), Acquire fails with VersionNotFound and performs no writes at all to
the destination. -/
theorem C6_version_not_found (plan : FetchPlan) (v : String)
    (dest : Destination) (hres : v ∉ plan.resolvable)
    (hdest : ∀ tree, dest = some tree → tree.marker ≠ v) :
    (Acquire plan v dest).outcome = Except.error AcqError.versionNotFound
  ∧ (Acquire plan v dest).dest = dest := by
  have hft : fetchTree plan v = Except.error AcqError.versionNotFound := by
    unfold fetchTree
    rw [if_neg hres]
  have hfresh : AcquireFresh plan v dest
      = { outcome := Except.error AcqError.versionNotFound, dest := dest,
          fetches := 0 } := by
    unfold AcquireFresh
    rw [hft]
  cases dest with
  | none =>
      simp only [Acquire]
      rw [hfresh]
      exact ⟨rfl, rfl⟩
  | some tree =>
      simp only [Acquire, if_neg (hdest tree rfl)]
      rw [hfresh]
      exact ⟨rfl, rfl⟩

/-- Witness for C6: requesting an unknown version against an absent
destination fails with VersionNotFound and writes nothing. -/
theorem C6_version_not_found_witness :
    (Acquire demoPlan "99.99.99.99" none).outcome
      = Except.error AcqError.versionNotFound
  ∧ (Acquire demoPlan "99.99.99.99" none).dest = none :=
  C6_version_not_found demoPlan "99.99.99.99" none (by decide)
    (fun _ ht => Option.noConfusion ht)

/-! ## Claim theorems about build orchestration -/

/-- Claim C5: the install step runs only after a successful compile — if the
external configure or compile step fails, the install directory for the
target keeps its prior contents (no InstallLayout is created or modified) and
the failure is surfaced as an external-toolchain error. -/
theorem C5_no_install_on_failed_compile (tc : Toolchain) (hdrs : List String)
    (base : BuildArgs) (t : TargetDescriptor) (prior : Option InstallLayout)
    (h : tc.configureOk = false ∨ tc.compileOk = false) :
    (Build tc hdrs base t prior).installDir = prior
  ∧ ∃ step output, (Build tc hdrs base t prior).outcome
      = Except.error (BuildError.externalToolchainFailure step output) := by
  cases hc : tc.configureOk with
  | false =>
      exact ⟨by simp [Build, hc], "configure", tc.configureOutput,
        by simp [Build, hc]⟩
  | true =>
      rcases h with h | h
      · rw [hc] at h
        cases h
      · exact ⟨by simp [Build, hc, h], "compile", tc.compileOutput,
          by simp [Build, hc, h]⟩

/-- Witness for C5: a failing compile step leaves an empty install directory
empty and reports the toolchain failure. -/
theorem C5_no_install_on_failed_compile_witness :
    (Build brokenToolchain ["include/v8.h"] demoBase demoTarget
        none).installDir = none
  ∧ ∃ step output,
      (Build brokenToolchain ["include/v8.h"] demoBase demoTarget
          none).outcome
        = Except.error (BuildError.externalToolchainFailure step output) :=
  C5_no_install_on_failed_compile brokenToolchain ["include/v8.h"] demoBase
    demoTarget none (Or.inr rfl)

/-- Claim C7: every successful Build install contains exactly the four
documented locatable parts — the single primary static archive named by the
platform convention (libv8_monolith.a, v8_monolith.lib on Windows), the
auxiliary platform-specific archives (libv8_libbase.a and libv8_libplatform.a
on Linux, none elsewhere), the header tree mirroring the upstream public
include tree, and a copy of the effective configuration used. -/
theorem C7_install_layout_parts (tc : Toolchain) (hdrs : List String)
    (base : BuildArgs) (t : TargetDescriptor) (prior : Option InstallLayout)
    (layout : InstallLayout)
    (h : (Build tc hdrs base t prior).outcome = Except.ok layout) :
    layout.primaryLib = primaryLibName t.platform
  ∧ layout.auxLibs = auxLibNames t.platform
  ∧ layout.headers = hdrs
  ∧ layout.argsFile = serializeArgs (effectiveArgs base t)
  ∧ primaryLibName Platform.windows = "v8_monolith.lib"
  ∧ primaryLibName Platform.linux = "libv8_monolith.a"
  ∧ primaryLibName Platform.macos = "libv8_monolith.a"
  ∧ auxLibNames Platform.linux = ["libv8_libbase.a", "libv8_libplatform.a"]
  ∧ auxLibNames Platform.macos = []
  ∧ auxLibNames Platform.windows = [] := by
  cases hc : tc.configureOk with
  | false => simp [Build, hc] at h
  | true =>
      cases hk : tc.compileOk with
      | false => simp [Build, hc, hk] at h
      | true =>
          simp only [Build, hc, hk, if_pos] at h
          injection h with h
          subst h
          exact ⟨rfl, rfl, rfl, rfl, rfl, rfl, rfl, rfl, rfl, rfl⟩

/-- Witness for C7: a successful Linux x64 debug build yields the documented
layout. -/
theorem C7_install_layout_parts_witness :
    demoLayout.primaryLib = primaryLibName Platform.linux
  ∧ demoLayout.headers = ["include/v8.h"] := by
  have h := C7_install_layout_parts demoToolchain ["include/v8.h"] demoBase
      demoTarget none demoLayout rfl
  exact ⟨h.1, h.2.2.1⟩

/-! ## Claim theorems about the embedding examples -/

/-- Claim C8: the JavaScript-exposed add binding throws
"add() requires two arguments" (setting no return value) when given fewer
than two arguments, and otherwise returns the sum of the number coercions of
the first two arguments, where a failed coercion contributes 0. -/
theorem C8_add_binding (args : List JSVal) :
    (args.length < 2 →
      Add args = CallOutcome.thrown "add() requires two arguments")
  ∧ (∀ a0 a1 rest, args = a0 :: a1 :: rest →
      Add args = CallOutcome.ret (JSVal.number
        (JSNum.add ((numberValue a0).getD (JSNum.fin 0))
          ((numberValue a1).getD (JSNum.fin 0))))) := by
  constructor
  · intro h
    simp [Add, h]
  · rintro a0 a1 rest rfl
    have hlen : ¬ (a0 :: a1 :: rest).length < 2 := by simp
    unfold Add
    rw [if_neg hlen]
    rfl

/-- Witness for C8: add(3, 4) returns 7, and add() with no arguments throws
the arity error. -/
theorem C8_add_binding_witness :
    Add [JSVal.number (JSNum.fin 3), JSVal.number (JSNum.fin 4)]
      = CallOutcome.ret (JSVal.number (JSNum.fin 7))
  ∧ Add [] = CallOutcome.thrown "add() requires two arguments" := by
  constructor
  · have h := (C8_add_binding
        [JSVal.number (JSNum.fin 3), JSVal.number (JSNum.fin 4)]).2
        (JSVal.number (JSNum.fin 3)) (JSVal.number (JSNum.fin 4)) [] rfl
    rw [h]
    norm_num [numberValue, JSNum.add]
  · exact (C8_add_binding []).1 (by decide)

/-- Claim C9: the stringLength binding throws
"stringLength() requires a string argument" exactly when it is called with no
arguments or with a first argument that is not a string, and otherwise
returns the length of that string and throws nothing. -/
theorem C9_stringLength_binding (args : List JSVal) :
    (StringLength args
        = CallOutcome.thrown "stringLength() requires a string argument"
      ↔ (args = [] ∨ isString (args.getD 0 JSVal.undefined) = false))
  ∧ (∀ s rest, args = JSVal.str s :: rest →
      StringLength args
        = CallOutcome.ret (JSVal.number (JSNum.fin (s.length : Rat)))) := by
  constructor
  · cases args with
    | nil => simp [StringLength]
    | cons a as => cases a <;> simp [StringLength, isString, getStr]
  · rintro s rest rfl
    simp [StringLength, isString, getStr]

/-- Witness for C9: stringLength("hello") returns 5, and stringLength(42)
throws the type error. -/
theorem C9_stringLength_binding_witness :
    StringLength [JSVal.str "hello"]
      = CallOutcome.ret (JSVal.number (JSNum.fin 5))
  ∧ StringLength [JSVal.number (JSNum.fin 42)]
      = CallOutcome.thrown "stringLength() requires a string argument" := by
  constructor
  · have h := (C9_stringLength_binding [JSVal.str "hello"]).2 "hello" [] rfl
    rw [h]
    decide
  · exact (C9_stringLength_binding [JSVal.number (JSNum.fin 42)]).1.mpr
      (Or.inr (by decide))

theorem readSeq_eq (c : Int) (n : Nat) :
    (readSeq c n).1 = c + n
  ∧ (readSeq c n).2
      = (List.range n).map (fun (i : Nat) => c + 1 + (i : Int)) := by
  induction n generalizing c with
  | zero => simp [readSeq]
  | succ n ih =>
      have h1 : readSeq c (n + 1)
          = ((readSeq (c + 1) n).1, (c + 1) :: (readSeq (c + 1) n).2) := rfl
      constructor
      · rw [h1]
        show (readSeq (c + 1) n).1 = c + ((n : Int) + 1)
        rw [(ih (c + 1)).1]
        ring
      · rw [h1]
        show (c + 1) :: (readSeq (c + 1) n).2 = _
        rw [(ih (c + 1)).2, List.range_succ_eq_map, List.map_cons,
          List.map_map]
        congr 1
        · norm_num
        · refine List.map_congr_left ?_
          intro i _
          simp only [Function.comp_apply]
          push_cast
          ring

/-- Claim C10: reading the global accessCount property is not
side-effect-free — each read increments the underlying C++ counter before
returning it, so n successive reads starting from counter value c return the
strictly increasing sequence c+1, c+2, ..., c+n (and leave the counter at
c+n). -/
theorem C10_accessCount_increments (c : Int) (n : Nat) :
    (AccessCountGetter c).1 = c + 1
  ∧ (AccessCountGetter c).2 = c + 1
  ∧ (readSeq c n).1 = c + n
  ∧ (readSeq c n).2 = (List.range n).map (fun (i : Nat) => c + 1 + (i : Int))
  ∧ (readSeq c n).2.Pairwise (fun a b => a < b) := by
  refine ⟨rfl, rfl, (readSeq_eq c n).1, (readSeq_eq c n).2, ?_⟩
  rw [(readSeq_eq c n).2]
  refine List.Pairwise.map _ ?_ (List.pairwise_lt_range n)
  intro a b hab
  omega

end V8Build
